import Mathlib

/-!
# Verification of the portfolio-balancer repository

A shallow embedding of the repository's code, and proofs of the spec's
claims about it.

The repository has two parts:

* `Metrics.ipynb`: the notebook that fetches CoinGecko prices for a fixed
  symbol table (`COINGECKO_IDS`), values two portfolios with
  `calculate_portfolio_value`, and compares them.  These functions are
  embedded below directly from the notebook source; Python floats are
  modelled as `ℚ`, Python dicts as association lists or
  `String → Option _` maps.

* The auto-trading script (`auto-trader.py`) described by the README and
  the specification (recommendation validation, simulate-mode order
  placement, OKX request signing).  Its source file is not part of the
  repository snapshot, so those operations are modelled from the spec's
  words; each such definition carries a doc comment starting
  `Modelled from the spec:`.
-/

namespace PortfolioBalancer

/-! ## Metrics.ipynb: portfolio valuation -/

/-- One entry of a portfolio's `"assets"` list in `Metrics.ipynb`:
`{"symbol": ..., "quantity": ...}`.  The quantity (a Python float in the
notebook) is modelled as `ℚ`. -/
structure Asset where
  symbol : String
  quantity : ℚ
  deriving DecidableEq, Repr

/-- The Python expression `prices.get(symbol, 0)` over a price dict
modelled as `String → Option ℚ`: the price when present, `0` otherwise. -/
def price_or_zero (prices : String → Option ℚ) (symbol : String) : ℚ :=
  (prices symbol).getD 0

/-- `calculate_portfolio_value(portfolio, prices)` of `Metrics.ipynb`:
starts from `total_value = 0` and, for each asset of the portfolio in
order, adds `quantity * prices.get(symbol, 0)`. -/
def calculate_portfolio_value (portfolio : List Asset)
    (prices : String → Option ℚ) : ℚ :=
  portfolio.foldl
    (fun total_value asset =>
      total_value + asset.quantity * price_or_zero prices asset.symbol)
    0

/-- The contribution of one asset to the total:
`quantity * prices.get(symbol, 0)`. -/
def contribution (prices : String → Option ℚ) (asset : Asset) : ℚ :=
  asset.quantity * price_or_zero prices asset.symbol

/-- `calculate_portfolio_value` together with the warnings its loop body
emits.  The loop body of the notebook's function is just
`total_value += quantity * price` with no print or logging statement, so
the emitted-warnings component is never touched. -/
def calculate_portfolio_value_logged (portfolio : List Asset)
    (prices : String → Option ℚ) : ℚ × List String :=
  portfolio.foldl
    (fun st asset =>
      (st.1 + asset.quantity * price_or_zero prices asset.symbol, st.2))
    (0, [])

/-- The notebook's example price dict (`Fetched Prices` of the recorded
run), used as a concrete input. -/
def examplePrices : String → Option ℚ := fun s =>
  if s = "BTC" then some 84417
  else if s = "USDT" then some 1
  else none

/-- Folding `+ f a` over a list starting from `c` is `c` plus the sum of
the images. -/
theorem foldl_add_eq_sum (f : Asset → ℚ) (l : List Asset) (c : ℚ) :
    l.foldl (fun t a => t + f a) c = c + (l.map f).sum := by
  induction l generalizing c with
  | nil => simp
  | cons a l ih =>
    simp only [List.foldl_cons, List.map_cons, List.sum_cons, ih]
    ring

/-- The same fold carrying an untouched log component: the log is
returned unchanged and the value component is the plain fold. -/
theorem foldl_logged_eq (portfolio : List Asset)
    (prices : String → Option ℚ) (c : ℚ) (log : List String) :
    portfolio.foldl
      (fun st asset =>
        (st.1 + asset.quantity * price_or_zero prices asset.symbol, st.2))
      (c, log)
      = (portfolio.foldl
          (fun t asset =>
            t + asset.quantity * price_or_zero prices asset.symbol) c,
        log) := by
  induction portfolio generalizing c with
  | nil => rfl
  | cons a l ih => simpa using ih _

/-- C1: for every portfolio and every price map,
`calculate_portfolio_value` returns exactly the sum over the entries of
`quantity × price_map[symbol]`, an entry whose symbol is absent from the
price map contributes exactly `0`, and the valuation is a total function
(it never fails because of a missing price). -/
theorem calculate_portfolio_value_eq_sum (portfolio : List Asset)
    (prices : String → Option ℚ) :
    calculate_portfolio_value portfolio prices
        = (portfolio.map (contribution prices)).sum
      ∧ ∀ asset ∈ portfolio, prices asset.symbol = none →
          contribution prices asset = 0 := by
  constructor
  · simpa [calculate_portfolio_value, contribution] using
      foldl_add_eq_sum (contribution prices) portfolio 0
  · intro asset _ hnone
    simp [contribution, price_or_zero, hnone]

/-- C3: `calculate_portfolio_value` is invariant under every permutation
of the balance list. -/
theorem calculate_portfolio_value_perm (p1 p2 : List Asset)
    (prices : String → Option ℚ) (h : p1.Perm p2) :
    calculate_portfolio_value p1 prices
      = calculate_portfolio_value p2 prices := by
  have e1 := foldl_add_eq_sum (contribution prices) p1 0
  have e2 := foldl_add_eq_sum (contribution prices) p2 0
  simp only [calculate_portfolio_value, contribution] at e1 e2 ⊢
  rw [e1, e2, (h.map (contribution prices)).sum_eq]

/-- C3 witness: swapping the two assets of the spec's scenario A
portfolio leaves the valuation unchanged. -/
theorem calculate_portfolio_value_perm_witness :
    calculate_portfolio_value
        [⟨"BTC", 1⟩, ⟨"USDT", 300⟩] examplePrices
      = calculate_portfolio_value
        [⟨"USDT", 300⟩, ⟨"BTC", 1⟩] examplePrices :=
  calculate_portfolio_value_perm _ _ _ (List.Perm.swap _ _ _)

/-- C2 counterexample: a portfolio holding a symbol absent from the
price map is valued with an empty warning log — the claimed warning for
the missing symbol is never emitted by the notebook's code. -/
theorem missing_price_warning_cex :
    (calculate_portfolio_value_logged [⟨"XYZ", 1⟩] (fun _ => none)).2
      = [] := rfl

/-- C2 amended: for every portfolio and price map the valuation emits no
warning at all — a missing price contributes `0` silently — and the
valued total agrees with `calculate_portfolio_value`. -/
theorem calculate_portfolio_value_is_silent (portfolio : List Asset)
    (prices : String → Option ℚ) :
    (calculate_portfolio_value_logged portfolio prices).2 = []
      ∧ (calculate_portfolio_value_logged portfolio prices).1
          = calculate_portfolio_value portfolio prices := by
  unfold calculate_portfolio_value_logged calculate_portfolio_value
  rw [foldl_logged_eq]
  exact ⟨rfl, rfl⟩

/-- The spec's end-to-end scenario A: balances `BTC: 1, USDT: 300`
under prices `BTC: 84417, USDT: 1` are valued at `84717`. -/
example :
    calculate_portfolio_value [⟨"BTC", 1⟩, ⟨"USDT", 300⟩] examplePrices
      = 84717 := by
  simp [calculate_portfolio_value, examplePrices, price_or_zero]
  norm_num

/-! ## Metrics.ipynb: price fetch and portfolio comparison -/

/-- `COINGECKO_IDS` of `Metrics.ipynb`: the fixed mapping from the
portfolio's symbols to CoinGecko API ids, in the dict's insertion
order. -/
def COINGECKO_IDS : List (String × String) :=
  [("BTC", "bitcoin"),
   ("ETH", "ethereum"),
   ("DOGE", "dogecoin"),
   ("SOL", "solana"),
   ("ADA", "cardano"),
   ("OKB", "okb"),
   ("USDT", "tether"),
   ("AGIX", "singularitynet")]

/-- The parsed JSON body of a CoinGecko `/simple/price` response: per
provider id, a dict from quote-currency name to price (the notebook asks
for `vs_currencies=usd`). -/
def ProviderResponse : Type := List (String × List (String × ℚ))

/-- The Python expression `data.get(id, {}).get("usd", 0)` over a parsed
provider response: the id's `"usd"` price when present, `0` when either
the id's entry or its `"usd"` key is absent. -/
def provider_usd (data : ProviderResponse) (id : String) : ℚ :=
  (((List.lookup id data).getD []).lookup "usd").getD 0

/-- `fetch_crypto_prices()` of `Metrics.ipynb`, as a function of the
provider's parsed response: builds
`{symbol: data.get(COINGECKO_IDS[symbol], {}).get("usd", 0) for symbol in COINGECKO_IDS}`,
converting the CoinGecko response back to the portfolio's symbols.  The
network call itself is the provider's side; its parsed body is the
argument. -/
def fetch_crypto_prices (data : ProviderResponse) : List (String × ℚ) :=
  COINGECKO_IDS.map (fun sp => (sp.1, provider_usd data sp.2))

/-- The comparison branch at the end of `Metrics.ipynb`, returning the
message template of the line it prints and the value interpolated into
it (`None` when the line carries no number).  The second branch prints
`f"Portfolio 2 performed worse! -{portfolio1_value - portfolio2_value:.2f}$"`:
a literal minus sign followed by the formatted difference
`portfolio1_value - portfolio2_value`, which in that branch is
negative. -/
def compare_portfolios (portfolio1_value portfolio2_value : ℚ) :
    String × Option ℚ :=
  if portfolio2_value < portfolio1_value then
    ("AI Portfolio performed better!",
      some (portfolio1_value - portfolio2_value))
  else if portfolio1_value < portfolio2_value then
    ("Portfolio 2 performed worse!",
      some (portfolio1_value - portfolio2_value))
  else
    ("Both portfolios have the same value!", none)

/-- C4: the fetch translates each of the program's own symbols to its
CoinGecko id before the query, translates the response back to the
program's symbols, and maps a symbol whose entry is absent from the
provider response to the price `0`. -/
theorem fetch_crypto_prices_translates (data : ProviderResponse)
    (symbol id : String) (h : (symbol, id) ∈ COINGECKO_IDS) :
    List.lookup symbol (fetch_crypto_prices data)
        = some (provider_usd data id)
      ∧ (List.lookup id data = none → provider_usd data id = 0) := by
  refine ⟨?_, ?_⟩
  · fin_cases h <;>
      simp [fetch_crypto_prices, COINGECKO_IDS, List.lookup]
  · intro hnone
    simp [provider_usd, hnone]

/-- C4 witness: on the empty provider response, `"BTC"` is looked up
under its id `"bitcoin"` and comes back priced `0`. -/
theorem fetch_crypto_prices_translates_witness :
    List.lookup "BTC" (fetch_crypto_prices [])
        = some (provider_usd [] "bitcoin")
      ∧ (List.lookup "bitcoin" ([] : ProviderResponse) = none →
          provider_usd [] "bitcoin" = 0) :=
  fetch_crypto_prices_translates [] "BTC" "bitcoin"
    (by simp [COINGECKO_IDS])

/-- C10: for every provider response, the returned price map's key list
is exactly the eight hard-coded symbols of `COINGECKO_IDS`, in order,
and every entry's value is the provider's USD price for the symbol's id
(which is `0` whenever the provider response has no entry for it); no
symbol outside the fixed mapping appears. -/
theorem fetch_crypto_prices_keys (data : ProviderResponse) :
    (fetch_crypto_prices data).map Prod.fst
        = ["BTC", "ETH", "DOGE", "SOL", "ADA", "OKB", "USDT", "AGIX"]
      ∧ ∀ entry ∈ fetch_crypto_prices data, ∃ id,
          (entry.1, id) ∈ COINGECKO_IDS
            ∧ entry.2 = provider_usd data id
            ∧ (List.lookup id data = none → entry.2 = 0) := by
  constructor
  · simp [fetch_crypto_prices, COINGECKO_IDS]
  · intro entry hmem
    obtain ⟨sp, hsp, rfl⟩ := List.mem_map.mp hmem
    refine ⟨sp.2, ?_, rfl, ?_⟩
    · simpa using hsp
    · intro hnone
      simp [provider_usd, hnone]

/-- C9: whenever portfolio 2's value strictly exceeds portfolio 1's, the
comparison prints the message "Portfolio 2 performed worse!" together
with the difference `portfolio1_value - portfolio2_value`, which is
negative — the higher-valued portfolio 2 is labelled as having performed
worse. -/
theorem compare_portfolios_p2_higher (portfolio1_value portfolio2_value : ℚ)
    (h : portfolio1_value < portfolio2_value) :
    compare_portfolios portfolio1_value portfolio2_value
        = ("Portfolio 2 performed worse!",
            some (portfolio1_value - portfolio2_value))
      ∧ portfolio1_value - portfolio2_value < 0 := by
  constructor
  · simp [compare_portfolios, h, not_lt_of_gt h, h.not_lt]
  · linarith

/-- C9 witness: with portfolio values `0 < 1`, the comparison reports
"Portfolio 2 performed worse!" with the negative difference `0 - 1`. -/
theorem compare_portfolios_p2_higher_witness :
    compare_portfolios 0 1
        = ("Portfolio 2 performed worse!", some ((0 : ℚ) - 1))
      ∧ (0 : ℚ) - 1 < 0 :=
  compare_portfolios_p2_higher 0 1 (by norm_num)

/-! ## Auto-trader: recommendation validation

The auto-trading script itself (`auto-trader.py`) is not part of the
repository snapshot — only the README describes it — so the validator,
order placement and request signer below are modelled from the spec. -/

/-- Modelled from the spec: the `action` field of a Trade
Recommendation, one of `{BUY, SELL, HOLD}`. -/
inductive Action where
  | BUY
  | SELL
  | HOLD
  deriving DecidableEq, Repr

/-- Modelled from the spec: a parsed Trade Recommendation
`{action, coin, amount_usd}` (the optional `reasoning` text plays no
part in validation). -/
structure TradeRecommendation where
  action : Action
  coin : String
  amount_usd : ℚ
  deriving DecidableEq, Repr

/-- Modelled from the spec: the validator's output — either a validated
`{action, coin, amount_usd}` ready for order construction together with
the warnings logged on the way, or a skip decision with a reason
string. -/
inductive ValidationDecision where
  | order (action : Action) (coin : String) (amount_usd : ℚ)
      (warnings : List String)
  | skip (reason : String)
  deriving DecidableEq, Repr

/-- The warning logged when `amount_usd` is clamped to the cap. -/
def clampWarning : String :=
  "amount_usd exceeds max_trade_size_usd, clamped to the cap"

/-- The skip reason of a HOLD recommendation. -/
def holdReason : String := "HOLD: no order, cycle succeeds"

/-- The skip reason of a negative `amount_usd`. -/
def negativeAmountReason : String := "amount_usd is negative"

/-- The skip reason of a coin the exchange does not support. -/
def unsupportedCoinReason : String := "unsupported coin"

/-- Modelled from the spec: the Recommendation Validator of §4.3 on an
already-parsed recommendation, rules checked in order, first failure
wins.  `HOLD` short-circuits to "no order, cycle succeeds"; a negative
`amount_usd` rejects; an `amount_usd` over `max_trade_size_usd` is
clamped to the cap with a logged warning, never rejected; a `coin` the
exchange does not support (rule 4) rejects with a skip. -/
def validate_recommendation (r : TradeRecommendation)
    (supported : List String) (max_trade_size_usd : ℚ) :
    ValidationDecision :=
  if r.action = Action.HOLD then
    ValidationDecision.skip holdReason
  else if r.amount_usd < 0 then
    ValidationDecision.skip negativeAmountReason
  else
    let clamped :=
      if max_trade_size_usd < r.amount_usd then max_trade_size_usd
      else r.amount_usd
    let warnings :=
      if max_trade_size_usd < r.amount_usd then [clampWarning] else []
    if r.coin ∈ supported then
      ValidationDecision.order r.action r.coin clamped warnings
    else
      ValidationDecision.skip unsupportedCoinReason

/-- The number of orders a validation decision submits: one for a
validated order, none for a skip. -/
def orders_submitted : ValidationDecision → Nat
  | ValidationDecision.order _ _ _ _ => 1
  | ValidationDecision.skip _ => 0

/-- C5: a BUY or SELL recommendation with a non-negative `amount_usd`
strictly above the cap is clamped to `max_trade_size_usd` with the clamp
warning logged and proceeds to order construction (when its coin is
supported); the oversized amount itself never causes a rejection — the
only skip such a recommendation can receive is the unsupported-coin skip
of the later rule 4, and the cycle is never aborted. -/
theorem validate_recommendation_clamps (r : TradeRecommendation)
    (supported : List String) (max_trade_size_usd : ℚ)
    (ha : r.action = Action.BUY ∨ r.action = Action.SELL)
    (h0 : 0 ≤ r.amount_usd) (hc : max_trade_size_usd < r.amount_usd) :
    (r.coin ∈ supported →
        validate_recommendation r supported max_trade_size_usd
          = ValidationDecision.order r.action r.coin max_trade_size_usd
              [clampWarning])
      ∧ (r.coin ∉ supported →
          validate_recommendation r supported max_trade_size_usd
            = ValidationDecision.skip unsupportedCoinReason)
      ∧ ∀ reason,
          validate_recommendation r supported max_trade_size_usd
              = ValidationDecision.skip reason →
            reason = unsupportedCoinReason := by
  have hhold : ¬ r.action = Action.HOLD := by
    rcases ha with h | h <;> simp [h]
  have hneg : ¬ r.amount_usd < 0 := not_lt.mpr h0
  refine ⟨?_, ?_, ?_⟩
  · intro hcoin
    simp [validate_recommendation, hhold, hneg, hc, hcoin]
  · intro hcoin
    simp [validate_recommendation, hhold, hneg, hc, hcoin]
  · intro reason hskip
    by_cases hcoin : r.coin ∈ supported <;>
      simp [validate_recommendation, hhold, hneg, hc, hcoin] at hskip
    exact hskip.symm

/-- C5 witness: the spec's scenario B — `BUY NEAR` for `10000` USD with
`max_trade_size_usd = 5000` — is clamped to `5000` with the warning, not
rejected. -/
theorem validate_recommendation_clamps_witness :
    (("NEAR" ∈ ["NEAR", "BTC"] →
        validate_recommendation ⟨Action.BUY, "NEAR", 10000⟩
            ["NEAR", "BTC"] 5000
          = ValidationDecision.order Action.BUY "NEAR" 5000
              [clampWarning])
      ∧ ("NEAR" ∉ ["NEAR", "BTC"] →
          validate_recommendation ⟨Action.BUY, "NEAR", 10000⟩
              ["NEAR", "BTC"] 5000
            = ValidationDecision.skip unsupportedCoinReason)
      ∧ ∀ reason,
          validate_recommendation ⟨Action.BUY, "NEAR", 10000⟩
              ["NEAR", "BTC"] 5000
              = ValidationDecision.skip reason →
            reason = unsupportedCoinReason) :=
  validate_recommendation_clamps ⟨Action.BUY, "NEAR", 10000⟩
    ["NEAR", "BTC"] 5000 (Or.inl rfl) (by norm_num) (by norm_num)

/-- C6: a HOLD recommendation, whatever its `coin` and `amount_usd`
fields, short-circuits to the "no order, cycle succeeds" skip: zero
orders are submitted. -/
theorem validate_recommendation_hold (coin : String) (amount_usd : ℚ)
    (supported : List String) (max_trade_size_usd : ℚ) :
    validate_recommendation ⟨Action.HOLD, coin, amount_usd⟩ supported
          max_trade_size_usd
        = ValidationDecision.skip holdReason
      ∧ orders_submitted
          (validate_recommendation ⟨Action.HOLD, coin, amount_usd⟩
            supported max_trade_size_usd) = 0 := by
  constructor
  · simp [validate_recommendation]
  · simp [validate_recommendation, orders_submitted]

/-! ## Auto-trader: order placement -/

/-- Modelled from the spec: an Order constructed from a validated
recommendation: `{instrument, side, order_type, size_or_amount}`. -/
structure Order where
  instrument : String
  side : String
  order_type : String
  size_usd : ℚ
  deriving DecidableEq, Repr

/-- Modelled from the spec: a network request the order-placement
operation may issue. -/
inductive NetworkRequest where
  | post (endpoint : String) (body : String)
  | get (path : String)
  deriving DecidableEq, Repr

/-- Modelled from the spec: what one run of the order-placement
operation did — the network requests it issued, the lines it logged, and
whether it returned success. -/
structure PlacementResult where
  network_calls : List NetworkRequest
  log : List String
  ok : Bool
  deriving DecidableEq, Repr

/-- The exchange's order-placement endpoint. -/
def order_endpoint : String := "/api/v5/trade/order"

/-- The serialized body of an order's POST request. -/
def order_payload (o : Order) : String :=
  o.instrument ++ " " ++ o.side ++ " " ++ o.order_type

/-- Modelled from the spec: Order Placement (§4.4).  In simulate mode it
constructs the would-be order payload, logs it as `SIMULATED` and
returns success without any network call; otherwise it issues one
signed POST to the order-placement endpoint. -/
def place_order (simulate : Bool) (o : Order) : PlacementResult :=
  if simulate then
    { network_calls := []
      log := ["SIMULATED " ++ order_payload o]
      ok := true }
  else
    { network_calls := [NetworkRequest.post order_endpoint (order_payload o)]
      log := ["order submitted " ++ order_payload o]
      ok := true }

/-- C7: in simulate mode, order placement performs no network call for
any order: in particular no POST is ever issued to the order endpoint;
the would-be payload is logged as `SIMULATED` and the result is
success. -/
theorem place_order_simulate_no_network (o : Order) :
    (place_order true o).network_calls = []
      ∧ (place_order true o).log = ["SIMULATED " ++ order_payload o]
      ∧ (place_order true o).ok = true
      ∧ ∀ endpoint body,
          NetworkRequest.post endpoint body ∉
            (place_order true o).network_calls := by
  refine ⟨rfl, rfl, rfl, ?_⟩
  intro endpoint body
  simp [place_order]

/-! ## Auto-trader: authenticated request signer

Modelled from the spec (§4.1) and the README, which names the algorithm
HMAC-SHA256: the signature is the base64-encoded HMAC-SHA256, keyed by
the API secret, of `timestamp + method + request_path + body`.  SHA-256
is given here in full (FIPS 180-4) over byte lists, with 32-bit words as
naturals reduced mod `2 ^ 32`. -/

/-- A 32-bit word: a natural reduced mod `2 ^ 32`. -/
def w32 (x : Nat) : Nat := x % 2 ^ 32

/-- Right rotation of a 32-bit word by `n` bits. -/
def rotr32 (n x : Nat) : Nat := w32 ((x >>> n) ||| (x <<< (32 - n)))

/-- Bitwise complement of a 32-bit word. -/
def not32 (x : Nat) : Nat := x ^^^ 0xffffffff

/-- SHA-256 `Ch(x, y, z)`. -/
def sha_ch (x y z : Nat) : Nat := (x &&& y) ^^^ (not32 x &&& z)

/-- SHA-256 `Maj(x, y, z)`. -/
def sha_maj (x y z : Nat) : Nat := (x &&& y) ^^^ (x &&& z) ^^^ (y &&& z)

/-- SHA-256 `Σ₀`. -/
def bigSigma0 (x : Nat) : Nat :=
  rotr32 2 x ^^^ rotr32 13 x ^^^ rotr32 22 x

/-- SHA-256 `Σ₁`. -/
def bigSigma1 (x : Nat) : Nat :=
  rotr32 6 x ^^^ rotr32 11 x ^^^ rotr32 25 x

/-- SHA-256 `σ₀`. -/
def smallSigma0 (x : Nat) : Nat :=
  rotr32 7 x ^^^ rotr32 18 x ^^^ (x >>> 3)

/-- SHA-256 `σ₁`. -/
def smallSigma1 (x : Nat) : Nat :=
  rotr32 17 x ^^^ rotr32 19 x ^^^ (x >>> 10)

/-- The 64 SHA-256 round constants, written in decimal. -/
def sha256K : List Nat :=
  [1116352408, 1899447441, 3049323471, 3921009573, 961987163,
   1508970993, 2453635748, 2870763221, 3624381080, 310598401,
   607225278, 1426881987, 1925078388, 2162078206, 2614888103,
   3248222580, 3835390401, 4022224774, 264347078, 604807628,
   770255983, 1249150122, 1555081692, 1996064986, 2554220882,
   2821834349, 2952996808, 3210313671, 3336571891, 3584528711,
   113926993, 338241895, 666307205, 773529912, 1294757372,
   1396182291, 1695183700, 1986661051, 2177026350, 2456956037,
   2730485921, 2820302411, 3259730800, 3345764771, 3516065817,
   3600352804, 4094571909, 275423344, 430227734, 506948616,
   659060556, 883997877, 958139571, 1322822218, 1537002063,
   1747873779, 1955562222, 2024104815, 2227730452, 2361852424,
   2428436474, 2756734187, 3204031479, 3329325298]

/-- The SHA-256 initial hash value, written in decimal. -/
def sha256H0 : List Nat :=
  [1779033703, 3144134277, 1013904242, 2773480762,
   1359893119, 2600822924, 528734635, 1541459225]

/-- `n` bytes of `v`, big-endian. -/
def bytesBE : Nat → Nat → List Nat
  | 0, _ => []
  | n + 1, v => bytesBE n (v / 256) ++ [v % 256]

/-- SHA-256 padding: append `0x80`, zeros to 56 mod 64, then the
message bit length as 8 big-endian bytes. -/
def sha256Pad (msg : List Nat) : List Nat :=
  let L := msg.length
  let zeros := (120 - (L + 1) % 64) % 64
  msg ++ [0x80] ++ List.replicate zeros 0 ++ bytesBE 8 (8 * L)

/-- Big-endian 32-bit words of a byte list. -/
def toWords : List Nat → List Nat
  | b0 :: b1 :: b2 :: b3 :: rest =>
      (((b0 * 256 + b1) * 256 + b2) * 256 + b3) :: toWords rest
  | _ => []

/-- Extend a message schedule by `n` further words
(`W[t] = σ₁(W[t-2]) + W[t-7] + σ₀(W[t-15]) + W[t-16] mod 2 ^ 32`). -/
def extendW : List Nat → Nat → List Nat
  | w, 0 => w
  | w, n + 1 =>
      let t := w.length
      extendW
        (w ++ [w32 (smallSigma1 (w.getD (t - 2) 0) + w.getD (t - 7) 0 +
          smallSigma0 (w.getD (t - 15) 0) + w.getD (t - 16) 0)]) n

/-- One round of the SHA-256 compression function on the state
`[a, b, c, d, e, f, g, h]`, given the round's `(Kₜ, Wₜ)`. -/
def compressRound (st : List Nat) (kw : Nat × Nat) : List Nat :=
  match st with
  | [a, b, c, d, e, f, g, h] =>
      let t1 := w32 (h + bigSigma1 e + sha_ch e f g + kw.1 + kw.2)
      let t2 := w32 (bigSigma0 a + sha_maj a b c)
      [w32 (t1 + t2), a, b, c, w32 (d + t1), e, f, g]
  | other => other

/-- Process one 64-byte block into the running hash. -/
def processBlock (h : List Nat) (block : List Nat) : List Nat :=
  let w := extendW (toWords block) 48
  let st := (sha256K.zip w).foldl compressRound h
  (h.zip st).map (fun p => w32 (p.1 + p.2))

/-- The 64-byte blocks of a byte list. -/
def chunks64 : List Nat → List (List Nat)
  | [] => []
  | b :: rest =>
      (b :: rest).take 64 :: chunks64 ((b :: rest).drop 64)
  termination_by l => l.length
  decreasing_by simp; omega

/-- SHA-256 of a byte list, as the 32 digest bytes. -/
def sha256 (msg : List Nat) : List Nat :=
  (((chunks64 (sha256Pad msg)).foldl processBlock sha256H0).map
    (bytesBE 4)).flatten

/-- HMAC-SHA256 (RFC 2104, block size 64): hash the key down when it is
long, zero-pad it to the block size, and chain the inner and outer
hashes. -/
def hmac_sha256 (key msg : List Nat) : List Nat :=
  let k0 := if 64 < key.length then sha256 key else key
  let k := k0 ++ List.replicate (64 - k0.length) 0
  let ipad := k.map (fun b => b ^^^ 0x36)
  let opad := k.map (fun b => b ^^^ 0x5c)
  sha256 (opad ++ sha256 (ipad ++ msg))

/-- The base64 alphabet. -/
def base64Alphabet : List Char :=
  "ABCDEFGHIJKLMNOPQRSTUVWXYZabcdefghijklmnopqrstuvwxyz0123456789+/".data

/-- The base64 character of a 6-bit group. -/
def base64Char (n : Nat) : Char := base64Alphabet.getD n '='

/-- Base64-encode a byte list, three bytes to four characters, padded
with `=`. -/
def base64Chars : List Nat → List Char
  | [] => []
  | [b0] =>
      [base64Char (b0 / 4), base64Char (b0 % 4 * 16), '=', '=']
  | [b0, b1] =>
      [base64Char (b0 / 4), base64Char (b0 % 4 * 16 + b1 / 16),
       base64Char (b1 % 16 * 4), '=']
  | b0 :: b1 :: b2 :: rest =>
      base64Char (b0 / 4) :: base64Char (b0 % 4 * 16 + b1 / 16) ::
      base64Char (b1 % 16 * 4 + b2 / 64) :: base64Char (b2 % 64) ::
      base64Chars rest

/-- Base64-encode a byte list into a string. -/
def base64 (bytes : List Nat) : String := String.mk (base64Chars bytes)

/-- The bytes of a string, one byte per character code point (API
methods, paths, timestamps and secrets are ASCII, where this is exactly
the UTF-8 encoding). -/
def strBytes (s : String) : List Nat := s.data.map Char.toNat

/-- Modelled from the spec: `get_okx_signature` — concatenate
`timestamp + method + request_path + body`, compute the HMAC-SHA256 of
that string keyed by the API secret, and base64-encode the digest. -/
def get_okx_signature (timestamp method request_path body secret :
    String) : String :=
  let message := timestamp ++ method ++ request_path ++ body
  base64 (hmac_sha256 (strBytes secret) (strBytes message))

/-- C8: the signer is a pure, deterministic function of
`(method, path, body, timestamp, secret)` — identical inputs give
identical signatures — and its value is exactly the base64-encoded
HMAC of `timestamp + method + request_path + body` keyed by the API
secret. -/
theorem get_okx_signature_deterministic
    (timestamp method request_path body secret : String) :
    get_okx_signature timestamp method request_path body secret
        = base64 (hmac_sha256 (strBytes secret)
            (strBytes (timestamp ++ method ++ request_path ++ body)))
      ∧ ∀ t2 m2 p2 b2 s2, timestamp = t2 → method = m2 →
          request_path = p2 → body = b2 → secret = s2 →
          get_okx_signature timestamp method request_path body secret
            = get_okx_signature t2 m2 p2 b2 s2 := by
  refine ⟨rfl, ?_⟩
  intro t2 m2 p2 b2 s2 h1 h2 h3 h4 h5
  rw [h1, h2, h3, h4, h5]

end PortfolioBalancer
